import Mathlib

/-!
Verification of the resilient external-API access layer and the batched
statistics aggregation of the tourism web site.

The definitions below are a shallow embedding of:
  * `src/lib/api/tour-api.ts` — `fetchWithRetry`, `normalizeItems`, the
    endpoint operations and their pagination metadata computation;
  * the statistics module (`chunkArray`, `getRegionStats`, `getTypeStats`).

Modelling conventions:
  * JSON field presence (the TypeScript `"field" in data` test, and optional
    fields) is modelled with `Option`.
  * The counts carried by the upstream API (`numOfRows`, `pageNo`,
    `totalCount`, HTTP status codes, waiting times in ms) are natural
    numbers.
  * A thrown JavaScript `Error` is a `FetchError` value; each constructor
    records the data interpolated into the message at the corresponding
    `throw` site.
  * The asynchronous behaviour of one `fetchWithRetry` call is deterministic
    given the behaviour of the underlying transport, which we model as a
    function from the attempt index to the outcome of that `fetch`; the
    observable sequencing (attempts, sleeps) is returned as an explicit
    trace.
-/

namespace TourApi

/-! ### Data model (src/lib/types/tour.ts) -/

/-- Shape of the `item` field, `T | T[] | undefined`: absent, a single
scalar, or an array.  All instantiations of `T` in the repository are JSON
objects, which are always truthy, so the JavaScript falsiness test `!items`
holds exactly in the `absent` case. -/
inductive ItemField (T : Type) where
  | absent : ItemField T
  | single : T → ItemField T
  | arr : List T → ItemField T
deriving DecidableEq

/-- Field `items : { item: T | T[] }` of a response body; at runtime the
`item` field can also be missing, hence `ItemField`. -/
structure ItemsField (T : Type) where
  item : ItemField T
deriving DecidableEq

/-- Upstream response body `ApiResponseBody<T>`: `items` with the ambiguous
`item` field, plus the optionally echoed `numOfRows`, `pageNo`,
`totalCount`.  The code accesses `items?.item`, so `items` itself may also
be absent. -/
structure ApiResponseBody (T : Type) where
  items : Option (ItemsField T)
  numOfRows : Option Nat
  pageNo : Option Nat
  totalCount : Option Nat
deriving DecidableEq

/-- Header `{ resultCode, resultMsg }` of the success envelope; the retry
code reads both fields through optional chaining, so each is optional. -/
structure ApiHeaderField where
  resultCode : Option String
  resultMsg : Option String
deriving DecidableEq

/-- Value of the `response` field of a success envelope: `header` and
`body`, each possibly absent at runtime. -/
structure RespField (B : Type) where
  header : Option ApiHeaderField
  body : Option B
deriving DecidableEq

/-- A decoded JSON envelope as inspected by `fetchWithRetry` (tour-api.ts
lines 125-146): there may be top-level `resultCode`/`resultMsg` fields (the
error-envelope shape) and there may be a `response` field (the success
shape).  `B` is the body type. -/
structure RawEnvelope (B : Type) where
  resultCode : Option String
  resultMsg : Option String
  response : Option (RespField B)
deriving DecidableEq

/-- Pagination metadata `{ pageNo, numOfRows, totalCount, totalPages }`. -/
structure PaginationMetadata where
  pageNo : Nat
  numOfRows : Nat
  totalCount : Nat
  totalPages : Nat
deriving DecidableEq

/-- Paginated result `{ items, pagination }`. -/
structure PaginationResponse (T : Type) where
  items : List T
  pagination : PaginationMetadata
deriving DecidableEq

/-- Area code entry `{ code, name }` (the optional `rnum` field is never
read by the statistics code and is omitted). -/
structure AreaCode where
  code : String
  name : String
deriving DecidableEq

/-- Per-region statistics entry `{ code, name, count }`. -/
structure RegionStats where
  code : String
  name : String
  count : Nat
deriving DecidableEq

/-- Per-content-type statistics entry `{ contentTypeId, name, count }`. -/
structure TypeStats where
  contentTypeId : String
  name : String
  count : Nat
deriving DecidableEq

/-- Translation of `normalizeItems` (tour-api.ts lines 182-185): absent
becomes the empty array, a scalar becomes a one-element array, an array is
returned unchanged. -/
def normalizeItems {T : Type} : ItemField T → List T
  | .absent => []
  | .single x => [x]
  | .arr xs => xs

/-! ### Thrown errors and the message inspection done by the retry loop -/

/-- A thrown `Error`, tagged by its throw site.  Each constructor carries
the data interpolated into the message string:
  * `rateLimit w` — "HTTP 429 (Rate Limit): {w}ms 대기 필요" (line 118);
  * `httpStatus s` — "HTTP error! status: {s}" (line 120);
  * `apiError c m` — "API error: {c} - {m}" (lines 131/141);
  * `network m` — rejection of `fetch` itself with message `m`;
  * `decodeError m` — rejection of `response.json()` with message `m`;
  * `generic m` — a plain `new Error(m)` thrown outside the retry loop
    (validation and response-structure errors). -/
inductive FetchError where
  | rateLimit : Nat → FetchError
  | httpStatus : Nat → FetchError
  | apiError : String → String → FetchError
  | network : String → FetchError
  | decodeError : String → FetchError
  | generic : String → FetchError
deriving DecidableEq

/-- Message string of a thrown error, as assembled at the throw site. -/
def FetchError.message : FetchError → String
  | .rateLimit w => "HTTP 429 (Rate Limit): " ++ toString w ++ "ms 대기 필요"
  | .httpStatus s => "HTTP error! status: " ++ toString s
  | .apiError c m => "API error: " ++ c ++ " - " ++ m
  | .network m => m
  | .decodeError m => m
  | .generic m => m

/-- Whether a character list contains the contiguous substring "429"; this
is `message.includes("429")` on the underlying characters. -/
def hasSub429 : List Char → Bool
  | [] => false
  | c :: rest => List.isPrefixOf ['4', '2', '9'] (c :: rest) || hasSub429 rest

/-- Scanner realising `message.match(/(\d+)ms/)` followed by `parseInt` on
the captured group.  The state is the value of the digit run ending just
before the current position (`none` when the previous character was not a
digit).  The regex matches at the first position where a maximal digit run
is immediately followed by the characters "ms", and captures that run; the
scanner returns exactly that value. -/
def findDigitsMsGo : Option Nat → List Char → Option Nat
  | _, [] => none
  | cur, c :: rest =>
    if c.isDigit then findDigitsMsGo (some (10 * cur.getD 0 + (c.toNat - 48))) rest
    else
      match cur, c, rest with
      | some v, 'm', 's' :: _ => some v
      | _, _, _ => findDigitsMsGo none rest

/-- Value extracted by `message.match(/(\d+)ms/)` with `parseInt` applied to
the captured digits, over the raw characters of the message. -/
def findDigitsMs (cs : List Char) : Option Nat :=
  findDigitsMsGo none cs

/-- Evaluation of `lastError?.message.includes("429")` for each error. -/
def FetchError.includes429 (e : FetchError) : Bool :=
  hasSub429 e.message.data

/-- Evaluation of `lastError?.message.match(/(\d+)ms/)` (line 163), with
`parseInt` applied to the captured digits.
  * For `rateLimit w` the message is "HTTP 429 (Rate Limit): {w}ms 대기 필요";
    the digit run "429" is followed by a space, so the first digit run
    followed by "ms" is the decimal representation of `w`, and the regex
    recovers exactly `w` (see `findDigitsMs_rateLimit_2000` and
    `findDigitsMs_rateLimit_4000` below for concrete agreement checks).
  * For `httpStatus s` the message "HTTP error! status: {s}" ends in the
    digits of `s` and contains no "ms": no match.
  * For the remaining constructors the message is scanned directly. -/
def FetchError.retryAfterMs : FetchError → Option Nat
  | .rateLimit w => some w
  | .httpStatus _ => none
  | e => findDigitsMs e.message.data

/-! ### Transport outcomes and the per-attempt body of `fetchWithRetry` -/

/-- Outcome of one `fetch(url, …)` call together with `response.json()`:
either the fetch itself rejects (network failure), or an HTTP response
arrives with a status code, an optional parsed `Retry-After` header value
(in seconds), and — if the status is ok and the body is read — either a
decode failure or the decoded envelope. -/
inductive FetchResult (B : Type) where
  | fail : String → FetchResult B
  | resp : Nat → Option Nat → Except String (RawEnvelope B) → FetchResult B

/-- The `response.ok` flag of the Fetch API: status in the range 200-299. -/
def httpOk (status : Nat) : Bool :=
  200 ≤ status && status < 300

/-- Translation of the success-shape check (tour-api.ts lines 137-145): if a
`response` field is present and `response.header.resultCode` is reachable,
truthy (nonempty) and not "0000", throw
`API error: {resultCode} - {resultMsg || "Unknown error"}`; otherwise
return the data unchanged. -/
def checkHeader {B : Type} (data : RawEnvelope B) : Except FetchError (RawEnvelope B) :=
  match data.response with
  | some resp =>
    match resp.header with
    | some hdr =>
      match hdr.resultCode with
      | some hcode =>
        if hcode ≠ "" ∧ hcode ≠ "0000" then
          .error (.apiError hcode
            (match hdr.resultMsg with
             | some m => if m = "" then "Unknown error" else m
             | none => "Unknown error"))
        else .ok data
      | none => .ok data
    | none => .ok data
  | none => .ok data

/-- Translation of the envelope normalization (tour-api.ts lines 125-146).
First the error-envelope check (lines 128-135): top-level `resultCode` and
`resultMsg` present and no `response` field is the error shape, which fails
with `API error: {resultCode} - {resultMsg}` unless the code is "0000".
Then the success-shape check (`checkHeader`, lines 138-145).  The guard
`data && typeof data === "object"` is identically true here because every
`RawEnvelope` models a JSON object. -/
def checkEnvelope {B : Type} (data : RawEnvelope B) : Except FetchError (RawEnvelope B) :=
  match data.resultCode, data.resultMsg, data.response with
  | some code, some msg, none =>
    if code ≠ "0000" then .error (.apiError code msg) else checkHeader data
  | _, _, _ => checkHeader data

/-- Waiting time computed at line 117 for an HTTP 429 response:
`retryAfter ? parseInt(retryAfter) * 1000 : delay * Math.pow(2, attempt + 2)`. -/
def rateLimitWait (retryAfter : Option Nat) (delay attempt : Nat) : Nat :=
  match retryAfter with
  | some sec => sec * 1000
  | none => delay * 2 ^ (attempt + 2)

/-- One iteration of the `try` block of `fetchWithRetry` (lines 100-148):
returns the attempt result together with the update to `lastStatusCode`
(which is assigned only when a response arrives with `!response.ok`).
On a non-ok status, a 429 throws the rate-limit error carrying the waiting
time `Retry-After * 1000` (header present) or `delay * 2 ^ (attempt + 2)`
(header absent), and any other status throws the HTTP status error; the
body is only decoded and envelope-checked when the status is ok. -/
def runAttempt {B : Type} (fr : FetchResult B) (delay attempt : Nat) :
    Except FetchError (RawEnvelope B) × Option Nat :=
  match fr with
  | .fail msg => (.error (.network msg), none)
  | .resp status retryAfter body =>
    if httpOk status then
      match body with
      | .error msg => (.error (.decodeError msg), none)
      | .ok data => (checkEnvelope data, none)
    else
      if status = 429 then
        (.error (.rateLimit (rateLimitWait retryAfter delay attempt)), some status)
      else
        (.error (.httpStatus status), some status)

/-- Observable event of one `fetchWithRetry` call: a transport attempt with
its index, or a sleep of the given number of milliseconds. -/
inductive TraceEv where
  | attemptEv : Nat → TraceEv
  | sleepEv : Nat → TraceEv
deriving DecidableEq

/-- The retry loop of `fetchWithRetry` (lines 99-174).  `attempt` is the
loop counter and `remaining = maxRetries - attempt` counts the retries
still allowed, so the loop guard `attempt < maxRetries` of line 158 holds
exactly when `remaining > 0`; the two cases below split on this guard, with
the identical `try`-body behaviour (the outcome match) in both.
`lastStatus` is the mutable `lastStatusCode`.  On a failed attempt
with retries remaining, the waiting time is chosen by the rate-limit test
`lastStatusCode === 429 || lastError.message.includes("429")` — either the
`Retry-After`-derived value recovered from the message (5000 when the
message carries no "{n}ms") or the exponential backoff
`delay * 2 ^ attempt` — and a sleep is recorded before the next attempt.
The result pairs the final outcome (the value of the first successful
attempt, or the error of the last attempt once retries are exhausted) with
the trace of attempts and sleeps. -/
def fetchGo {B : Type} (transport : Nat → FetchResult B) (delay : Nat) :
    Nat → Nat → Option Nat → Except FetchError (RawEnvelope B) × List TraceEv
  | attempt, 0, _ =>
    match runAttempt (transport attempt) delay attempt with
    | (.ok data, _) => (.ok data, [.attemptEv attempt])
    | (.error e, _) => (.error e, [.attemptEv attempt])
  | attempt, r + 1, lastStatus =>
    match runAttempt (transport attempt) delay attempt with
    | (.ok data, _) => (.ok data, [.attemptEv attempt])
    | (.error e, statusUpd) =>
      let newStatus := if statusUpd.isSome then statusUpd else lastStatus
      let waitTime :=
        if newStatus == some 429 || e.includes429 then e.retryAfterMs.getD 5000
        else delay * 2 ^ attempt
      let rest := fetchGo transport delay (attempt + 1) r newStatus
      (rest.1, .attemptEv attempt :: .sleepEv waitTime :: rest.2)

/-- Translation of `fetchWithRetry` (lines 91-177), parameterized by the
transport behaviour per attempt.  The source defaults are `maxRetries = 3`
and `delay = 1000`.  The final `throw lastError || new Error(...)` always
re-raises `lastError`: the loop body runs at least once, so `lastError` is
set whenever the loop exits without returning. -/
def fetchWithRetry {B : Type} (transport : Nat → FetchResult B)
    (maxRetries delay : Nat) : Except FetchError (RawEnvelope B) × List TraceEv :=
  fetchGo transport delay 0 maxRetries none

/-- Number of transport attempts recorded in a trace. -/
def countAttempts (tr : List TraceEv) : Nat :=
  tr.countP fun ev => match ev with | .attemptEv _ => true | .sleepEv _ => false

/-- Whether an `Except` value is an error. -/
def isErr {ε α : Type} : Except ε α → Bool
  | .error _ => true
  | .ok _ => false

/-! ### Endpoint operations (tour-api.ts lines 301-486) -/

/-- Access `body.items?.item`: absent `items` and absent `item` both read as
`undefined`. -/
def bodyItem {T : Type} (body : ApiResponseBody T) : ItemField T :=
  match body.items with
  | none => .absent
  | some its => its.item

/-- Fallback `echoed || requested` on an optional echoed number (lines
345-347 and 468-470): in JavaScript both an absent field and an echoed `0`
are falsy, so either falls back to the second operand. -/
def orFalsy (echoed : Option Nat) (fallback : Nat) : Nat :=
  match echoed with
  | some n => if n = 0 then fallback else n
  | none => fallback

/-- Translation of the pagination metadata extraction (lines 344-357, and
identically lines 467-480): effective `totalCount`, `pageNo`, `numOfRows`
via the `||` fallbacks, and
`totalPages = currentNumOfRows > 0 ? Math.ceil(totalCount / currentNumOfRows) : 0`.
On naturals `Math.ceil (a / b) = (a + b - 1) / b`. -/
def computePagination {T : Type} (body : ApiResponseBody T)
    (pageNo numOfRows : Nat) : PaginationMetadata :=
  let totalCount := orFalsy body.totalCount 0
  let currentPageNo := orFalsy body.pageNo pageNo
  let currentNumOfRows := orFalsy body.numOfRows numOfRows
  let totalPages :=
    if 0 < currentNumOfRows then (totalCount + currentNumOfRows - 1) / currentNumOfRows
    else 0
  ⟨currentPageNo, currentNumOfRows, totalCount, totalPages⟩

/-- Post-fetch shaping shared verbatim by `getAreaBasedListWithPagination`
(lines 324-358) and `searchKeywordWithPagination` (lines 447-481): reject a
missing `response` or `body`; when `items?.item` is absent (falsy) return
empty items with the requested `pageNo`/`numOfRows` and zero counts;
otherwise normalize the items and compute the pagination metadata from the
body. -/
def shapePaginated {T : Type} (env : RawEnvelope (ApiResponseBody T))
    (pageNo numOfRows : Nat) : Except FetchError (PaginationResponse T) :=
  match env.response with
  | none => .error (.generic "API 응답 구조가 올바르지 않습니다")
  | some resp =>
    match resp.body with
    | none => .error (.generic "API 응답 구조가 올바르지 않습니다")
    | some body =>
      match bodyItem body with
      | .absent => .ok ⟨[], ⟨pageNo, numOfRows, 0, 0⟩⟩
      | it => .ok ⟨normalizeItems it, computePagination body pageNo numOfRows⟩

/-- Translation of `getAreaBasedListWithPagination` (lines 301-363) against
a given transport, with the default retry configuration
`fetchWithRetry(url)` = 3 retries, 1000ms base delay.  The returned trace
is that of the underlying `fetchWithRetry` call. -/
def getAreaBasedListWithPagination {T : Type}
    (transport : Nat → FetchResult (ApiResponseBody T)) (pageNo numOfRows : Nat) :
    Except FetchError (PaginationResponse T) × List TraceEv :=
  let r := fetchWithRetry transport 3 1000
  (match r.1 with
   | .ok env => shapePaginated env pageNo numOfRows
   | .error e => .error e,
   r.2)

/-- The JavaScript `String.prototype.trim`, over the characters of the
string: whitespace is removed from both ends. -/
def jsTrim (s : String) : String :=
  ⟨((s.data.dropWhile Char.isWhitespace).reverse.dropWhile Char.isWhitespace).reverse⟩

/-- Keyword guard of `searchKeyword` and `searchKeywordWithPagination`
(lines 392-394 and 433-435): `!keyword || keyword.trim().length === 0`.
The empty string is falsy and also trims to length 0, so the guard is
equivalent to the trimmed keyword being empty. -/
def keywordBlank (keyword : String) : Bool :=
  (jsTrim keyword).length = 0

/-- Translation of `searchKeyword` (lines 382-410): validate the keyword
before any network call, then fetch with the default retry configuration
and normalize `response.response.body.items?.item`.  A missing `response`
or `body` makes that member access raise a TypeError, modelled as a
generic error. -/
def searchKeyword {T : Type} (keyword : String)
    (transport : Nat → FetchResult (ApiResponseBody T)) :
    Except FetchError (List T) × List TraceEv :=
  if keywordBlank keyword then
    (.error (.generic "검색 키워드는 필수입니다."), [])
  else
    let r := fetchWithRetry transport 3 1000
    (match r.1 with
     | .ok env =>
       match env.response with
       | none => .error (.generic "TypeError: cannot read property of undefined")
       | some resp =>
         match resp.body with
         | none => .error (.generic "TypeError: cannot read property of undefined")
         | some body => .ok (normalizeItems (bodyItem body))
     | .error e => .error e,
     r.2)

/-- Translation of `searchKeywordWithPagination` (lines 423-486): the same
keyword validation before any network call, then fetch with the default
retry configuration and the shared paginated shaping. -/
def searchKeywordWithPagination {T : Type} (keyword : String)
    (transport : Nat → FetchResult (ApiResponseBody T)) (pageNo numOfRows : Nat) :
    Except FetchError (PaginationResponse T) × List TraceEv :=
  if keywordBlank keyword then
    (.error (.generic "검색 키워드는 필수입니다."), [])
  else
    let r := fetchWithRetry transport 3 1000
    (match r.1 with
     | .ok env => shapePaginated env pageNo numOfRows
     | .error e => .error e,
     r.2)

/-! ### Batch aggregation (statistics module, src/unnamed/part_001) -/

/-- Translation of `chunkArray` (part_001 lines 540-546): the slice loop
`for (i = 0; i < array.length; i += size) chunks.push(array.slice(i, i + size))`.
Each recursive step takes one `size`-element slice and continues after it;
`array.slice(i, i + size).drop` of the head list is `List.drop (size - 1)`
of the tail.  With `size = 0` the source loop would never terminate on a
nonempty array; no call site uses 0 (both aggregators use `BATCH_SIZE = 3`)
and the model returns `[]` there. -/
def chunkArray {α : Type} : List α → Nat → List (List α)
  | [], _ => []
  | x :: xs, size =>
    if size = 0 then []
    else List.take size (x :: xs) :: chunkArray (List.drop (size - 1) xs) size
termination_by l _ => l.length
decreasing_by
  have h := List.length_drop (size - 1) xs
  simp only [List.length_cons]
  omega

/-- Observable event of one aggregation run: a sub-task call starting, a
sub-task resolving, or the inter-group cooldown sleep. -/
inductive BatchEv (K : Type) where
  | start : K → BatchEv K
  | resolve : K → BatchEv K
  | cooldown : Nat → BatchEv K
deriving DecidableEq

/-- Events of one batch (part_001 lines 581-605): `batch.map(async …)`
creates the per-key sub-tasks in order, then `await Promise.all` resolves
every one of them before the loop continues. -/
def groupEvents {K : Type} (batch : List K) : List (BatchEv K) :=
  batch.map .start ++ batch.map .resolve

/-- Events of the batch loop (part_001 lines 576-612): the batches run in
order, and after each batch except the last the loop awaits
`delay(cooldownMs)` (the guard `i < batches.length - 1` of line 609). -/
def batchTrace {K : Type} (cooldownMs : Nat) : List (List K) → List (BatchEv K)
  | [] => []
  | [b] => groupEvents b
  | b :: rest => groupEvents b ++ .cooldown cooldownMs :: batchTrace cooldownMs rest

/-- Schedule of one aggregation run over `keys`, as executed by both
`getRegionStats` (lines 570-612) and `getTypeStats` (lines 652-695):
`BATCH_SIZE = 3` and `BATCH_DELAY = 500`. -/
def statsBatchSchedule {K : Type} (keys : List K) : List (BatchEv K) :=
  batchTrace 500 (chunkArray keys 3)

/-- One per-region sub-task (lines 581-603): call
`getAreaBasedListWithPagination({areaCode, numOfRows: 1, pageNo: 1})`,
modelled by its outcome `call area`; on success build the entry with
`count = result.pagination.totalCount || 0` (on naturals the `|| 0`
fallback is the identity), on any caught failure return `null`. -/
def regionSubtask {E : Type} (call : AreaCode → Except E PaginationMetadata)
    (area : AreaCode) : Option RegionStats :=
  match call area with
  | .ok result => some ⟨area.code, area.name, result.totalCount⟩
  | .error _ => none

/-- Translation of `getRegionStats` (lines 562-628), parameterized by the
area list returned by `getAreaCode()` and by the per-area outcome of the
listing call: chunk into batches of 3, run every batch in order collecting
per-key results (`null` for a failed key), then drop the `null` entries and
sort descending by count.  The comparator `(a, b) => b.count - a.count` is
positive exactly when `a.count < b.count`, so the stable sort orders by
`b.count ≤ a.count`. -/
def getRegionStats {E : Type} (areaCodes : List AreaCode)
    (call : AreaCode → Except E PaginationMetadata) : List RegionStats :=
  let batches := chunkArray areaCodes 3
  let allResults := (batches.map fun batch => batch.map (regionSubtask call)).flatten
  (allResults.filterMap id).mergeSort fun a b => decide (b.count ≤ a.count)

/-- Translation of `getContentTypeName` (part_001 lines 507-528). -/
def getContentTypeName (contentTypeId : String) : String :=
  if contentTypeId = "12" then "관광지"
  else if contentTypeId = "14" then "문화시설"
  else if contentTypeId = "15" then "축제/행사"
  else if contentTypeId = "25" then "여행코스"
  else if contentTypeId = "28" then "레포츠"
  else if contentTypeId = "32" then "숙박"
  else if contentTypeId = "38" then "쇼핑"
  else if contentTypeId = "39" then "음식점"
  else "기타"

/-- The key set of `getTypeStats`: `Object.values(CONTENT_TYPE)`
(src/lib/types/tour.ts lines 269-278), in declaration order. -/
def contentTypeIds : List String :=
  ["12", "14", "15", "25", "28", "32", "38", "39"]

/-- One per-type sub-task (lines 663-685), analogous to `regionSubtask`. -/
def typeSubtask {E : Type} (call : String → Except E PaginationMetadata)
    (contentTypeId : String) : Option TypeStats :=
  match call contentTypeId with
  | .ok result => some ⟨contentTypeId, getContentTypeName contentTypeId, result.totalCount⟩
  | .error _ => none

/-- Translation of `getTypeStats` (lines 644-711): same batch structure as
`getRegionStats` over the fixed key set `contentTypeIds`. -/
def getTypeStats {E : Type} (call : String → Except E PaginationMetadata) :
    List TypeStats :=
  let batches := chunkArray contentTypeIds 3
  let allResults := (batches.map fun batch => batch.map (typeSubtask call)).flatten
  (allResults.filterMap id).mergeSort fun a b => decide (b.count ≤ a.count)

/-! ### Claim C7, the specified pagination contract (from the spec text) -/

/-- Modelled from the spec (claim C7 wording): the "effective" value is the
one echoed by the upstream body when present, else the requested one. -/
def claimEffective (echoed : Option Nat) (requested : Nat) : Nat :=
  echoed.getD requested

/-- Modelled from the spec (claim C7 wording): totalPages as the claim
states it, `ceil(totalCount / numOfRows)` over the effective values and 0
when the effective `numOfRows` is 0. -/
def claimTotalPages {T : Type} (body : ApiResponseBody T) (numOfRows : Nat) : Nat :=
  let eff := claimEffective body.numOfRows numOfRows
  if eff = 0 then 0 else (claimEffective body.totalCount 0 + eff - 1) / eff

/-- Effective value under the amended claim: echoed when present and
nonzero (truthy), else the requested one. -/
def claimEffectiveTruthy (echoed : Option Nat) (requested : Nat) : Nat :=
  match echoed with
  | some n => if n ≠ 0 then n else requested
  | none => requested

/-- totalPages as the amended claim states it: `ceil(totalCount/numOfRows)`
over the truthy-effective values, and 0 when the effective `numOfRows`
is 0. -/
def claimTotalPagesAmended {T : Type} (body : ApiResponseBody T) (numOfRows : Nat) : Nat :=
  let eff := claimEffectiveTruthy body.numOfRows numOfRows
  if eff = 0 then 0 else (claimEffectiveTruthy body.totalCount 0 + eff - 1) / eff

/-! ### Supporting lemmas -/

/-- Agreement of the constructor-level `retryAfterMs` with a direct scan of
the assembled message, checked at waiting time 2000. -/
theorem findDigitsMs_rateLimit_2000 :
    findDigitsMs (FetchError.rateLimit 2000).message.data = some 2000 := by
  decide

/-- Agreement of the constructor-level `retryAfterMs` with a direct scan of
the assembled message, checked at waiting time 4000. -/
theorem findDigitsMs_rateLimit_4000 :
    findDigitsMs (FetchError.rateLimit 4000).message.data = some 4000 := by
  decide

/-- Agreement of the constructor-level `retryAfterMs` with a direct scan of
the assembled message for a plain HTTP status error. -/
theorem findDigitsMs_httpStatus_500 :
    findDigitsMs (FetchError.httpStatus 500).message.data = none := by
  decide

/-- The `||` fallback of the source agrees with the truthy effective value
of the amended claim. -/
theorem orFalsy_eq_claimEffectiveTruthy (echoed : Option Nat) (fallback : Nat) :
    orFalsy echoed fallback = claimEffectiveTruthy echoed fallback := by
  cases echoed with
  | none => rfl
  | some n =>
    by_cases h : n = 0 <;> simp [orFalsy, claimEffectiveTruthy, h]

/-- Chunking with a nonzero size and flattening gives back the list. -/
theorem chunkArray_flatten {α : Type} (size : Nat) (hs : size ≠ 0) :
    ∀ l : List α, (chunkArray l size).flatten = l := by
  suffices h : ∀ (n : Nat) (l : List α), l.length = n → (chunkArray l size).flatten = l by
    intro l
    exact h l.length l rfl
  intro n
  induction n using Nat.strong_induction_on with
  | _ n ih =>
    intro l hn
    cases l with
    | nil => simp [chunkArray]
    | cons x xs =>
      simp only [chunkArray, if_neg hs, List.flatten_cons]
      have hlen : (List.drop (size - 1) xs).length < n := by
        have := List.length_drop (size - 1) xs
        simp only [List.length_cons] at hn
        omega
      rw [ih (List.drop (size - 1) xs).length hlen (List.drop (size - 1) xs) rfl]
      have hd : List.drop (size - 1) xs = List.drop size (x :: xs) := by
        cases size with
        | zero => exact absurd rfl hs
        | succ k => simp
      rw [hd, List.take_append_drop]

/-- A `filterMap` whose function hits `some` on every element preserves the
length. -/
theorem length_filterMap_all_isSome {K R : Type} (f : K → Option R) :
    ∀ l : List K, (∀ k ∈ l, (f k).isSome = true) → (l.filterMap f).length = l.length := by
  intro l
  induction l with
  | nil => intro _; rfl
  | cons x xs ih =>
    intro hall
    have hx := hall x (by simp)
    rcases Option.isSome_iff_exists.mp hx with ⟨r, hr⟩
    rw [List.filterMap_cons, hr]
    simp only [List.length_cons]
    rw [ih fun k hk => hall k (by simp [hk])]

/-- A `filterMap` whose function is `none` on exactly one element of a list
without duplicates drops exactly that element. -/
theorem length_filterMap_one_none {K R : Type} (f : K → Option R) (bad : K) :
    ∀ l : List K, l.Nodup → bad ∈ l → f bad = none →
      (∀ k ∈ l, k ≠ bad → (f k).isSome = true) →
      (l.filterMap f).length = l.length - 1 := by
  intro l
  induction l with
  | nil => intro _ hmem; exact absurd hmem (by simp)
  | cons x xs ih =>
    intro hnd hmem hbad hok
    have hndx := (List.nodup_cons.mp hnd).1
    have hndxs := (List.nodup_cons.mp hnd).2
    rcases List.mem_cons.mp hmem with hx | hxs
    · subst hx
      rw [List.filterMap_cons, hbad]
      have : ∀ k ∈ xs, (f k).isSome = true := by
        intro k hk
        exact hok k (by simp [hk]) (fun he => hndx (he ▸ hk))
      rw [length_filterMap_all_isSome f xs this]
      simp
    · have hxbad : x ≠ bad := fun he => hndx (he ▸ hxs)
      have hx := hok x (by simp) hxbad
      rcases Option.isSome_iff_exists.mp hx with ⟨r, hr⟩
      rw [List.filterMap_cons, hr]
      have hlen := ih hndxs hxs hbad fun k hk hkb => hok k (by simp [hk]) hkb
      have hpos : 1 ≤ xs.length := List.length_pos.mpr (List.ne_nil_of_mem hxs)
      simp only [List.length_cons, hlen]
      omega

/-- Merge sort with the descending-count comparator sorts descending by
count. -/
theorem sorted_mergeSort_byCountDesc {R : Type} (count : R → Nat) (l : List R) :
    List.Sorted (fun a b : R => count b ≤ count a)
      (l.mergeSort fun a b => decide (count b ≤ count a)) := by
  have h := @List.sorted_mergeSort R (fun a b => decide (count b ≤ count a))
    (fun a b c hab hbc => by
      simp only [decide_eq_true_eq] at hab hbc ⊢
      omega)
    (fun a b => by
      simp only [Bool.or_eq_true, decide_eq_true_eq]
      omega)
    l
  exact h.imp fun hab => of_decide_eq_true hab

/-- A failed call yields no entry from the per-region sub-task. -/
theorem regionSubtask_none_of_isErr {E : Type}
    (call : AreaCode → Except E PaginationMetadata) (k : AreaCode)
    (h : isErr (call k) = true) : regionSubtask call k = none := by
  cases hc : call k with
  | ok v => rw [hc] at h; simp [isErr] at h
  | error e => simp [regionSubtask, hc]

/-- A successful call yields an entry from the per-region sub-task. -/
theorem regionSubtask_isSome_of_not_isErr {E : Type}
    (call : AreaCode → Except E PaginationMetadata) (k : AreaCode)
    (h : isErr (call k) = false) : (regionSubtask call k).isSome = true := by
  cases hc : call k with
  | ok v => simp [regionSubtask, hc]
  | error e => rw [hc] at h; simp [isErr] at h

/-- A failed call yields no entry from the per-type sub-task. -/
theorem typeSubtask_none_of_isErr {E : Type}
    (call : String → Except E PaginationMetadata) (k : String)
    (h : isErr (call k) = true) : typeSubtask call k = none := by
  cases hc : call k with
  | ok v => rw [hc] at h; simp [isErr] at h
  | error e => simp [typeSubtask, hc]

/-- A successful call yields an entry from the per-type sub-task. -/
theorem typeSubtask_isSome_of_not_isErr {E : Type}
    (call : String → Except E PaginationMetadata) (k : String)
    (h : isErr (call k) = false) : (typeSubtask call k).isSome = true := by
  cases hc : call k with
  | ok v => simp [typeSubtask, hc]
  | error e => rw [hc] at h; simp [isErr] at h

/-- The batched collection of `getRegionStats` flattens to a plain
`filterMap` over the original key order. -/
theorem getRegionStats_eq {E : Type} (areaCodes : List AreaCode)
    (call : AreaCode → Except E PaginationMetadata) :
    getRegionStats areaCodes call
      = (areaCodes.filterMap (regionSubtask call)).mergeSort
          fun a b => decide (b.count ≤ a.count) := by
  simp only [getRegionStats]
  rw [← List.map_flatten, chunkArray_flatten 3 (by omega), List.filterMap_map]
  simp [Function.comp_def]

/-- The batched collection of `getTypeStats` flattens to a plain
`filterMap` over the fixed key order. -/
theorem getTypeStats_eq {E : Type} (call : String → Except E PaginationMetadata) :
    getTypeStats call
      = (contentTypeIds.filterMap (typeSubtask call)).mergeSort
          fun a b => decide (b.count ≤ a.count) := by
  simp only [getTypeStats]
  rw [← List.map_flatten, chunkArray_flatten 3 (by omega), List.filterMap_map]
  simp [Function.comp_def]

/-- One-step unfolding of the retry loop when no retries remain. -/
theorem fetchGo_zero {B : Type} (transport : Nat → FetchResult B) (delay attempt : Nat)
    (lastStatus : Option Nat) :
    fetchGo transport delay attempt 0 lastStatus
      = match runAttempt (transport attempt) delay attempt with
        | (.ok data, _) => (.ok data, [.attemptEv attempt])
        | (.error e, _) => (.error e, [.attemptEv attempt]) := rfl

/-- One-step unfolding of the retry loop when retries remain. -/
theorem fetchGo_succ {B : Type} (transport : Nat → FetchResult B) (delay attempt r : Nat)
    (lastStatus : Option Nat) :
    fetchGo transport delay attempt (r + 1) lastStatus
      = match runAttempt (transport attempt) delay attempt with
        | (.ok data, _) => (.ok data, [.attemptEv attempt])
        | (.error e, statusUpd) =>
          let newStatus := if statusUpd.isSome then statusUpd else lastStatus
          let waitTime :=
            if newStatus == some 429 || e.includes429 then e.retryAfterMs.getD 5000
            else delay * 2 ^ attempt
          ((fetchGo transport delay (attempt + 1) r newStatus).1,
            .attemptEv attempt :: .sleepEv waitTime ::
              (fetchGo transport delay (attempt + 1) r newStatus).2) := rfl

/-- Loop invariant for a run whose failures are followed by a success: from
`attempt` with `remaining` retries left, if every attempt strictly before
`attempt + remaining` fails and attempt `attempt + remaining` succeeds with
`env`, the loop returns `env` and performs exactly `remaining + 1`
attempts. -/
theorem fetchGo_fail_then_ok {B : Type} (transport : Nat → FetchResult B)
    (delay : Nat) (env : RawEnvelope B) :
    ∀ (remaining attempt : Nat) (lastStatus : Option Nat),
      (∀ i, attempt ≤ i → i < attempt + remaining →
        isErr (runAttempt (transport i) delay i).1 = true) →
      (runAttempt (transport (attempt + remaining)) delay (attempt + remaining)).1 = .ok env →
      (fetchGo transport delay attempt remaining lastStatus).1 = .ok env
      ∧ countAttempts (fetchGo transport delay attempt remaining lastStatus).2
          = remaining + 1 := by
  intro remaining
  induction remaining with
  | zero =>
    intro attempt lastStatus hfail hsucc
    rw [Nat.add_zero] at hsucc
    rcases hr : runAttempt (transport attempt) delay attempt with ⟨r1, r2⟩
    rw [hr] at hsucc
    simp only at hsucc
    subst hsucc
    rw [fetchGo_zero, hr]
    constructor
    · rfl
    · simp [countAttempts]
  | succ r ih =>
    intro attempt lastStatus hfail hsucc
    have hfa := hfail attempt (Nat.le_refl _) (by omega)
    rcases hr : runAttempt (transport attempt) delay attempt with ⟨r1, r2⟩
    rw [hr] at hfa
    cases r1 with
    | ok v => simp [isErr] at hfa
    | error e =>
      have hshift : attempt + 1 + r = attempt + (r + 1) := by omega
      have ihh := ih (attempt + 1) (if r2.isSome then r2 else lastStatus)
        (fun i h1 h2 => hfail i (by omega) (by omega))
        (by rw [hshift]; exact hsucc)
      rw [fetchGo_succ, hr]
      constructor
      · exact ihh.1
      · simp only [countAttempts, List.countP_cons] at ihh ⊢
        rw [ihh.2]
        simp

/-- Loop invariant for a run in which every attempt fails: the loop raises
the error of the last attempt, the one at index `attempt + remaining`. -/
theorem fetchGo_all_fail {B : Type} (transport : Nat → FetchResult B)
    (delay : Nat) (errs : Nat → FetchError) :
    ∀ (remaining attempt : Nat) (lastStatus : Option Nat),
      (∀ i, attempt ≤ i → i ≤ attempt + remaining →
        (runAttempt (transport i) delay i).1 = .error (errs i)) →
      (fetchGo transport delay attempt remaining lastStatus).1
        = .error (errs (attempt + remaining)) := by
  intro remaining
  induction remaining with
  | zero =>
    intro attempt lastStatus hfail
    have hfa := hfail attempt (Nat.le_refl _) (by omega)
    rw [Nat.add_zero]
    rcases hr : runAttempt (transport attempt) delay attempt with ⟨r1, r2⟩
    rw [hr] at hfa
    simp only at hfa
    subst hfa
    rw [fetchGo_zero, hr]
  | succ r ih =>
    intro attempt lastStatus hfail
    have hfa := hfail attempt (Nat.le_refl _) (by omega)
    rcases hr : runAttempt (transport attempt) delay attempt with ⟨r1, r2⟩
    rw [hr] at hfa
    simp only at hfa
    subst hfa
    have hshift : attempt + 1 + r = attempt + (r + 1) := by omega
    have ihh := ih (attempt + 1) (if r2.isSome then r2 else lastStatus)
      (fun i h1 h2 => hfail i (by omega) (by omega))
    rw [hshift] at ihh
    rw [fetchGo_succ, hr]
    exact ihh

/-! ### Claim theorems -/

/-- Claim C1: for every configuration (maxRetries, baseDelay) and every
transport whose first `maxRetries` attempts fail (in any of the failure
modes of an attempt) while attempt `maxRetries` succeeds with envelope
`env`, `fetchWithRetry` returns that envelope and performs exactly
`maxRetries + 1` transport attempts. -/
theorem fetchWithRetry_fail_then_succeed (B : Type)
    (transport : Nat → FetchResult B) (maxRetries delay : Nat) (env : RawEnvelope B)
    (hfail : ∀ i, i < maxRetries → isErr (runAttempt (transport i) delay i).1 = true)
    (hsucc : (runAttempt (transport maxRetries) delay maxRetries).1 = .ok env) :
    (fetchWithRetry transport maxRetries delay).1 = .ok env
    ∧ countAttempts (fetchWithRetry transport maxRetries delay).2 = maxRetries + 1 := by
  have h := fetchGo_fail_then_ok transport delay env maxRetries 0 none
    (fun i h0 hi => hfail i (by omega))
    (by rw [Nat.zero_add]; exact hsucc)
  exact h

/-- Witness for C1 at a concrete run: maxRetries = 2, a transport that
rejects twice with a network failure and then delivers a valid envelope. -/
theorem fetchWithRetry_fail_then_succeed_witness :
    (fetchWithRetry
        (fun i => if i < 2 then FetchResult.fail "ECONNRESET"
          else FetchResult.resp 200 none
            (.ok (⟨none, none, some ⟨none, none⟩⟩ : RawEnvelope (ApiResponseBody Unit))))
        2 1000).1
      = .ok ⟨none, none, some ⟨none, none⟩⟩
    ∧ countAttempts
        (fetchWithRetry
          (fun i => if i < 2 then FetchResult.fail "ECONNRESET"
            else FetchResult.resp 200 none
              (.ok (⟨none, none, some ⟨none, none⟩⟩ : RawEnvelope (ApiResponseBody Unit))))
          2 1000).2 = 3 :=
  fetchWithRetry_fail_then_succeed (ApiResponseBody Unit)
    (fun i => if i < 2 then FetchResult.fail "ECONNRESET"
      else FetchResult.resp 200 none (.ok ⟨none, none, some ⟨none, none⟩⟩))
    2 1000 ⟨none, none, some ⟨none, none⟩⟩ (by decide) rfl

/-- Claim C2: when every one of the `maxRetries + 1` attempts fails,
`fetchWithRetry` raises exactly the error observed on the last attempt
(index `maxRetries`), unchanged and unwrapped. -/
theorem fetchWithRetry_exhausted_raises_last (B : Type)
    (transport : Nat → FetchResult B) (maxRetries delay : Nat)
    (errs : Nat → FetchError)
    (hfail : ∀ i, i ≤ maxRetries → (runAttempt (transport i) delay i).1 = .error (errs i)) :
    (fetchWithRetry transport maxRetries delay).1 = .error (errs maxRetries) := by
  have h := fetchGo_all_fail transport delay errs maxRetries 0 none
    (fun i h0 hi => hfail i (by omega))
  rw [Nat.zero_add] at h
  exact h

/-- Witness for C2 at a concrete run: maxRetries = 1 and a transport whose
attempt i fails with HTTP status 500 + i, so the raised error is the one of
the last attempt (status 501), not of the first. -/
theorem fetchWithRetry_exhausted_raises_last_witness :
    (fetchWithRetry (B := ApiResponseBody Unit)
        (fun i => FetchResult.resp (500 + i) none (.error "unused")) 1 1000).1
      = .error (.httpStatus 501) :=
  fetchWithRetry_exhausted_raises_last (ApiResponseBody Unit)
    (fun i => FetchResult.resp (500 + i) none (.error "unused")) 1 1000
    (fun i => .httpStatus (500 + i)) (by intro i hi; interval_cases i <;> rfl)

/-- Claim C3: a decoded body with top-level `resultCode` and `resultMsg`,
no `response` field and a result code other than "0000" is treated as an
error — the normalization rejects it with exactly that code and message and
never as a success — and an ok-status attempt delivering such a body fails
with that error (the error-envelope check of lines 128-135 runs before the
success-shape check of lines 138-145, which such an envelope never
reaches). -/
theorem errorEnvelope_never_success (B : Type) (code msg : String)
    (status : Nat) (retryAfter : Option Nat) (delay attempt : Nat)
    (hcode : code ≠ "0000") :
    checkEnvelope (B := B) ⟨some code, some msg, none⟩ = .error (.apiError code msg)
    ∧ (httpOk status = true →
        runAttempt (FetchResult.resp status retryAfter
            (.ok (⟨some code, some msg, none⟩ : RawEnvelope B))) delay attempt
          = (.error (.apiError code msg), none)) := by
  constructor
  · simp [checkEnvelope, hcode]
  · intro hok
    simp [runAttempt, hok, checkEnvelope, hcode]

/-- Witness for C3: the upstream error envelope with code "03"
(NODATA-style) on an HTTP 200 response. -/
theorem errorEnvelope_never_success_witness :
    checkEnvelope (B := ApiResponseBody Unit)
        ⟨some "03", some "SERVICE ERROR", none⟩
      = .error (.apiError "03" "SERVICE ERROR")
    ∧ (httpOk 200 = true →
        runAttempt (FetchResult.resp 200 none
            (.ok (⟨some "03", some "SERVICE ERROR", none⟩
              : RawEnvelope (ApiResponseBody Unit)))) 1000 0
          = (.error (.apiError "03" "SERVICE ERROR"), none)) :=
  errorEnvelope_never_success (ApiResponseBody Unit) "03" "SERVICE ERROR"
    200 none 1000 0 (by decide)

/-- Claim C4: `normalizeItems` sends an absent item to `[]`, a scalar to a
one-element array and an array to itself, so its result is always an array
and renormalizing an already-normalized array changes nothing. -/
theorem normalizeItems_spec (T : Type) (x : T) (xs : List T) (it : ItemField T) :
    normalizeItems (ItemField.absent (T := T)) = []
    ∧ normalizeItems (ItemField.single x) = [x]
    ∧ normalizeItems (ItemField.arr xs) = xs
    ∧ normalizeItems (ItemField.arr (normalizeItems it)) = normalizeItems it :=
  ⟨rfl, rfl, rfl, rfl⟩

/-- Counterexample to claim C7 as stated: when the upstream echoes
`numOfRows = 0` (present but falsy) with `totalCount = 95` and the request
asked for 10 rows, the code falls back to the requested 10 through `||` and
returns `totalPages = 10`, while the claim (effective value = echoed when
present) predicts an effective `numOfRows` of 0 and hence `totalPages = 0`. -/
theorem computePagination_claim_counterexample :
    (computePagination (T := Unit) ⟨none, some 0, some 1, some 95⟩ 1 10).totalPages = 10
    ∧ claimTotalPages (T := Unit) ⟨none, some 0, some 1, some 95⟩ 10 = 0
    ∧ (computePagination (T := Unit) ⟨none, some 0, some 1, some 95⟩ 1 10).totalPages
        ≠ claimTotalPages (T := Unit) ⟨none, some 0, some 1, some 95⟩ 10 :=
  ⟨rfl, rfl, by decide⟩

/-- Claim C7 as amended: `totalPages` equals `ceil(totalCount / numOfRows)`
computed from the effective values — the ones echoed by the upstream body
when present and nonzero (truthy), else the requested ones — and equals 0
when the effective `numOfRows` is 0; in particular effective totalCount 95
with effective numOfRows 10 yields 10.  An upstream-supplied `totalPages`
is never used: the body type read by the code carries no such field and the
first conjunct shows the result is recomputed from the counts alone. -/
theorem computePagination_totalPages (T : Type) (body : ApiResponseBody T)
    (pageNo numOfRows : Nat) :
    (computePagination body pageNo numOfRows).totalPages
        = claimTotalPagesAmended body numOfRows
    ∧ (claimEffectiveTruthy body.numOfRows numOfRows = 0 →
        (computePagination body pageNo numOfRows).totalPages = 0)
    ∧ (claimEffectiveTruthy body.totalCount 0 = 95 →
        claimEffectiveTruthy body.numOfRows numOfRows = 10 →
        (computePagination body pageNo numOfRows).totalPages = 10)
    ∧ (∀ (transport : Nat → FetchResult (ApiResponseBody T)) (keyword : String)
        (env : RawEnvelope (ApiResponseBody T)) (resp : RespField (ApiResponseBody T)),
        (fetchWithRetry transport 3 1000).1 = .ok env →
        env.response = some resp → resp.body = some body →
        bodyItem body ≠ ItemField.absent → keywordBlank keyword = false →
        (getAreaBasedListWithPagination transport pageNo numOfRows).1
            = .ok ⟨normalizeItems (bodyItem body), computePagination body pageNo numOfRows⟩
          ∧ (searchKeywordWithPagination keyword transport pageNo numOfRows).1
            = .ok ⟨normalizeItems (bodyItem body), computePagination body pageNo numOfRows⟩) := by
  refine ⟨?_, ?_, ?_, ?_⟩
  · simp only [computePagination, claimTotalPagesAmended,
      orFalsy_eq_claimEffectiveTruthy]
    by_cases h : claimEffectiveTruthy body.numOfRows numOfRows = 0
    · simp [h]
    · simp [h, Nat.pos_of_ne_zero h]
  · intro h0
    simp [computePagination, orFalsy_eq_claimEffectiveTruthy, h0]
  · intro h95 h10
    simp [computePagination, orFalsy_eq_claimEffectiveTruthy, h95, h10]
  · intro transport keyword env resp hfetch hresp hbody hitem hkw
    have hshape : shapePaginated env pageNo numOfRows
        = .ok ⟨normalizeItems (bodyItem body), computePagination body pageNo numOfRows⟩ := by
      cases hbi : bodyItem body with
      | absent => exact absurd hbi hitem
      | single x => simp [shapePaginated, hresp, hbody, hbi]
      | arr xs => simp [shapePaginated, hresp, hbody, hbi]
    constructor
    · simp [getAreaBasedListWithPagination, hfetch, hshape]
    · simp [searchKeywordWithPagination, hkw, hfetch, hshape]

/-- Witness for C7 (amended) at the claimed instance: upstream echoes
totalCount 95 and numOfRows 10, so ten pages result. -/
theorem computePagination_totalPages_witness :
    (computePagination (T := Unit) ⟨none, some 10, none, some 95⟩ 3 7).totalPages = 10 :=
  (computePagination_totalPages Unit ⟨none, some 10, none, some 95⟩ 3 7).2.2.1 rfl rfl

/-- Claim C8: when attempt `attempt` hits HTTP 429 and retries remain, the
sleep recorded before the next attempt is `Retry-After * 1000` when the
header is present, and `delay * 2 ^ (attempt + 2)` when it is absent (the
waiting time is computed at line 117, carried in the thrown message, and
recovered by the regex at line 163); in particular `Retry-After: 2` makes
the client wait 2000ms — at least 2000ms — before its next attempt. -/
theorem rateLimit_wait (B : Type) (transport : Nat → FetchResult B)
    (delay attempt r : Nat) (lastStatus : Option Nat) (retryAfter : Option Nat)
    (body : Except String (RawEnvelope B))
    (ht : transport attempt = .resp 429 retryAfter body) :
    fetchGo transport delay attempt (r + 1) lastStatus
      = ((fetchGo transport delay (attempt + 1) r (some 429)).1,
          .attemptEv attempt ::
            .sleepEv (rateLimitWait retryAfter delay attempt) ::
            (fetchGo transport delay (attempt + 1) r (some 429)).2)
    ∧ (retryAfter = some 2 → 2000 ≤ rateLimitWait retryAfter delay attempt)
    ∧ (retryAfter = none →
        rateLimitWait retryAfter delay attempt = delay * 2 ^ (attempt + 2)) := by
  refine ⟨?_, ?_, ?_⟩
  · rw [fetchGo_succ, ht]
    simp [runAttempt, httpOk, FetchError.retryAfterMs]
  · rintro rfl
    simp [rateLimitWait]
  · rintro rfl
    rfl

/-- Witness for C8: a transport that always answers 429 with Retry-After 2;
the trace of the first step shows the 2000ms sleep before attempt 1. -/
theorem rateLimit_wait_witness :
    fetchGo (B := ApiResponseBody Unit)
        (fun _ => FetchResult.resp 429 (some 2) (.error "unused")) 1000 0 (0 + 1) none
      = ((fetchGo (B := ApiResponseBody Unit)
            (fun _ => FetchResult.resp 429 (some 2) (.error "unused"))
            1000 (0 + 1) 0 (some 429)).1,
          .attemptEv 0 ::
            .sleepEv (rateLimitWait (some 2) 1000 0) ::
            (fetchGo (B := ApiResponseBody Unit)
              (fun _ => FetchResult.resp 429 (some 2) (.error "unused"))
              1000 (0 + 1) 0 (some 429)).2)
    ∧ (some 2 = some 2 → 2000 ≤ rateLimitWait (some 2) 1000 0)
    ∧ ((some 2 : Option Nat) = none →
        rateLimitWait (some 2) 1000 0 = 1000 * 2 ^ (0 + 2)) :=
  rateLimit_wait (ApiResponseBody Unit)
    (fun _ => FetchResult.resp 429 (some 2) (.error "unused"))
    1000 0 0 none (some 2) (.error "unused") rfl

/-- Claim C9: a keyword that is empty after trimming makes `searchKeyword`
and `searchKeywordWithPagination` fail immediately with the validation
error, with an empty trace — zero transport attempts, hence nothing to
retry. -/
theorem searchKeyword_blank_keyword (T : Type) (keyword : String)
    (transport : Nat → FetchResult (ApiResponseBody T)) (pageNo numOfRows : Nat)
    (hkw : keywordBlank keyword = true) :
    searchKeyword keyword transport
      = (.error (.generic "검색 키워드는 필수입니다."), [])
    ∧ searchKeywordWithPagination keyword transport pageNo numOfRows
      = (.error (.generic "검색 키워드는 필수입니다."), []) := by
  constructor
  · simp [searchKeyword, hkw]
  · simp [searchKeywordWithPagination, hkw]

/-- Witness for C9 at the spec scenario `searchByKeyword({keyword:"  "})`. -/
theorem searchKeyword_blank_keyword_witness :
    searchKeyword (T := Unit) "  " (fun _ => FetchResult.fail "never called")
      = (.error (.generic "검색 키워드는 필수입니다."), [])
    ∧ searchKeywordWithPagination (T := Unit) "  "
        (fun _ => FetchResult.fail "never called") 1 10
      = (.error (.generic "검색 키워드는 필수입니다."), []) :=
  searchKeyword_blank_keyword Unit "  " (fun _ => FetchResult.fail "never called")
    1 10 (by decide)

/-- Claim C10: in both paginated variants, a successful fetch whose body
carries no `items.item` yields an empty item list with pagination exactly
(requested pageNo, requested numOfRows, 0, 0); whatever counts the body
echoes are ignored in this case. -/
theorem paginated_absent_items (T : Type)
    (transport : Nat → FetchResult (ApiResponseBody T)) (keyword : String)
    (env : RawEnvelope (ApiResponseBody T)) (resp : RespField (ApiResponseBody T))
    (body : ApiResponseBody T) (pageNo numOfRows : Nat)
    (hfetch : (fetchWithRetry transport 3 1000).1 = .ok env)
    (hresp : env.response = some resp) (hbody : resp.body = some body)
    (hitems : bodyItem body = .absent) (hkw : keywordBlank keyword = false) :
    (getAreaBasedListWithPagination transport pageNo numOfRows).1
      = .ok ⟨[], ⟨pageNo, numOfRows, 0, 0⟩⟩
    ∧ (searchKeywordWithPagination keyword transport pageNo numOfRows).1
      = .ok ⟨[], ⟨pageNo, numOfRows, 0, 0⟩⟩ := by
  have hshape : shapePaginated env pageNo numOfRows = .ok ⟨[], ⟨pageNo, numOfRows, 0, 0⟩⟩ := by
    simp [shapePaginated, hresp, hbody, hitems]
  constructor
  · simp [getAreaBasedListWithPagination, hfetch, hshape]
  · simp [searchKeywordWithPagination, hkw, hfetch, hshape]

/-- Witness for C10: a transport whose first attempt delivers a success
envelope with no items but with echoed `numOfRows = 7`, `pageNo = 9` and
`totalCount = 1234`; the result still reports the requested page 2 of size
5 with zero counts. -/
theorem paginated_absent_items_witness :
    (getAreaBasedListWithPagination (T := Unit)
        (fun _ => FetchResult.resp 200 none
          (.ok ⟨none, none, some ⟨some ⟨some "0000", some "OK"⟩,
            some ⟨none, some 7, some 9, some 1234⟩⟩⟩)) 2 5).1
      = .ok ⟨[], ⟨2, 5, 0, 0⟩⟩
    ∧ (searchKeywordWithPagination (T := Unit) "해운대"
        (fun _ => FetchResult.resp 200 none
          (.ok ⟨none, none, some ⟨some ⟨some "0000", some "OK"⟩,
            some ⟨none, some 7, some 9, some 1234⟩⟩⟩)) 2 5).1
      = .ok ⟨[], ⟨2, 5, 0, 0⟩⟩ :=
  paginated_absent_items Unit
    (fun _ => FetchResult.resp 200 none
      (.ok ⟨none, none, some ⟨some ⟨some "0000", some "OK"⟩,
        some ⟨none, some 7, some 9, some 1234⟩⟩⟩))
    "해운대"
    ⟨none, none, some ⟨some ⟨some "0000", some "OK"⟩,
      some ⟨none, some 7, some 9, some 1234⟩⟩⟩
    ⟨some ⟨some "0000", some "OK"⟩, some ⟨none, some 7, some 9, some 1234⟩⟩
    ⟨none, some 7, some 9, some 1234⟩ 2 5 rfl rfl rfl rfl (by decide)

/-- Claim C5: an aggregation run over 7 keys with group size 3 — the
schedule shared by `getRegionStats` and `getTypeStats` — partitions the
keys in order into 3 sequential groups of sizes 3, 3 and 1; the 500ms
cooldown occurs between consecutive groups but neither before the first
nor after the last; and in the schedule every call of a group starts after
every call of the previous group has resolved (each group contributes its
starts followed by its resolutions, and the next group only appears after
them and the cooldown). -/
theorem batch_schedule_seven_keys (K : Type) (keys : List K)
    (h : keys.length = 7) :
    ∃ b0 b1 b2, chunkArray keys 3 = [b0, b1, b2]
      ∧ b0.length = 3 ∧ b1.length = 3 ∧ b2.length = 1
      ∧ b0 ++ b1 ++ b2 = keys
      ∧ statsBatchSchedule keys
          = (b0.map BatchEv.start ++ b0.map BatchEv.resolve)
              ++ BatchEv.cooldown 500
              :: ((b1.map BatchEv.start ++ b1.map BatchEv.resolve)
                ++ BatchEv.cooldown 500
                :: (b2.map BatchEv.start ++ b2.map BatchEv.resolve)) := by
  rcases keys with _ | ⟨a, keys⟩
  · simp only [List.length_nil] at h
    omega
  rcases keys with _ | ⟨b, keys⟩
  · simp only [List.length_cons, List.length_nil] at h
    omega
  rcases keys with _ | ⟨c, keys⟩
  · simp only [List.length_cons, List.length_nil] at h
    omega
  rcases keys with _ | ⟨d, keys⟩
  · simp only [List.length_cons, List.length_nil] at h
    omega
  rcases keys with _ | ⟨e, keys⟩
  · simp only [List.length_cons, List.length_nil] at h
    omega
  rcases keys with _ | ⟨f, keys⟩
  · simp only [List.length_cons, List.length_nil] at h
    omega
  rcases keys with _ | ⟨g, keys⟩
  · simp only [List.length_cons, List.length_nil] at h
    omega
  rcases keys with _ | ⟨x, keys⟩
  · refine ⟨[a, b, c], [d, e, f], [g], ?_, rfl, rfl, rfl, rfl, ?_⟩
    · simp [chunkArray]
    · simp [statsBatchSchedule, chunkArray, batchTrace, groupEvents]
  · simp only [List.length_cons] at h
    omega

/-- Witness for C5: the schedule over the seven keys 0..6. -/
theorem batch_schedule_seven_keys_witness :
    ∃ b0 b1 b2, chunkArray [0, 1, 2, 3, 4, 5, 6] 3 = [b0, b1, b2]
      ∧ b0.length = 3 ∧ b1.length = 3 ∧ b2.length = 1
      ∧ b0 ++ b1 ++ b2 = [0, 1, 2, 3, 4, 5, 6]
      ∧ statsBatchSchedule [0, 1, 2, 3, 4, 5, 6]
          = (b0.map BatchEv.start ++ b0.map BatchEv.resolve)
              ++ BatchEv.cooldown 500
              :: ((b1.map BatchEv.start ++ b1.map BatchEv.resolve)
                ++ BatchEv.cooldown 500
                :: (b2.map BatchEv.start ++ b2.map BatchEv.resolve)) :=
  batch_schedule_seven_keys Nat [0, 1, 2, 3, 4, 5, 6] (by decide)

/-- Claim C6: when exactly one key of a duplicate-free key set always fails
while every other key succeeds, `getRegionStats` returns `N - 1` entries —
the failing key is silently omitted and no error is raised (the result is a
plain list, every entry coming from a successful non-failing key) — sorted
descending by count; and likewise `getTypeStats` over its fixed key set of
the 8 content types. -/
theorem stats_one_failing_key (E : Type) (areaCodes : List AreaCode)
    (acall : AreaCode → Except E PaginationMetadata) (badA : AreaCode)
    (tcall : String → Except E PaginationMetadata) (badT : String)
    (hnd : areaCodes.Nodup) (hmemA : badA ∈ areaCodes)
    (hbadA : isErr (acall badA) = true)
    (hokA : ∀ k ∈ areaCodes, k ≠ badA → isErr (acall k) = false)
    (hmemT : badT ∈ contentTypeIds)
    (hbadT : isErr (tcall badT) = true)
    (hokT : ∀ k ∈ contentTypeIds, k ≠ badT → isErr (tcall k) = false) :
    (getRegionStats areaCodes acall).length = areaCodes.length - 1
    ∧ (∀ s ∈ getRegionStats areaCodes acall,
        ∃ k ∈ areaCodes, k ≠ badA ∧ regionSubtask acall k = some s)
    ∧ List.Sorted (fun u v : RegionStats => v.count ≤ u.count)
        (getRegionStats areaCodes acall)
    ∧ (getTypeStats tcall).length = contentTypeIds.length - 1
    ∧ (∀ s ∈ getTypeStats tcall,
        ∃ k ∈ contentTypeIds, k ≠ badT ∧ typeSubtask tcall k = some s)
    ∧ List.Sorted (fun u v : TypeStats => v.count ≤ u.count)
        (getTypeStats tcall) := by
  have hpermA := List.mergeSort_perm (areaCodes.filterMap (regionSubtask acall))
    fun u v : RegionStats => decide (v.count ≤ u.count)
  have hpermT := List.mergeSort_perm (contentTypeIds.filterMap (typeSubtask tcall))
    fun u v : TypeStats => decide (v.count ≤ u.count)
  refine ⟨?_, ?_, ?_, ?_, ?_, ?_⟩
  · rw [getRegionStats_eq, hpermA.length_eq]
    exact length_filterMap_one_none (regionSubtask acall) badA areaCodes hnd hmemA
      (regionSubtask_none_of_isErr acall badA hbadA)
      (fun k hk hkb => regionSubtask_isSome_of_not_isErr acall k (hokA k hk hkb))
  · intro s hs
    rw [getRegionStats_eq] at hs
    have hs2 := hpermA.mem_iff.mp hs
    rcases List.mem_filterMap.mp hs2 with ⟨k, hk, hfk⟩
    refine ⟨k, hk, ?_, hfk⟩
    intro hkb
    rw [hkb, regionSubtask_none_of_isErr acall badA hbadA] at hfk
    exact Option.noConfusion hfk
  · rw [getRegionStats_eq]
    exact sorted_mergeSort_byCountDesc RegionStats.count _
  · rw [getTypeStats_eq, hpermT.length_eq]
    exact length_filterMap_one_none (typeSubtask tcall) badT contentTypeIds
      (by decide) hmemT
      (typeSubtask_none_of_isErr tcall badT hbadT)
      (fun k hk hkb => typeSubtask_isSome_of_not_isErr tcall k (hokT k hk hkb))
  · intro s hs
    rw [getTypeStats_eq] at hs
    have hs2 := hpermT.mem_iff.mp hs
    rcases List.mem_filterMap.mp hs2 with ⟨k, hk, hfk⟩
    refine ⟨k, hk, ?_, hfk⟩
    intro hkb
    rw [hkb, typeSubtask_none_of_isErr tcall badT hbadT] at hfk
    exact Option.noConfusion hfk
  · rw [getTypeStats_eq]
    exact sorted_mergeSort_byCountDesc TypeStats.count _

/-- Witness for C6: two regions of which Busan always fails, and the eight
content types of which "39" always fails. -/
theorem stats_one_failing_key_witness :
    (getRegionStats [⟨"1", "서울"⟩, ⟨"6", "부산"⟩]
        (fun a => if a.code = "6" then .error () else .ok ⟨1, 1, 5, 5⟩)).length
      = ([⟨"1", "서울"⟩, ⟨"6", "부산"⟩] : List AreaCode).length - 1
    ∧ (∀ s ∈ getRegionStats [⟨"1", "서울"⟩, ⟨"6", "부산"⟩]
          (fun a => if a.code = "6" then .error () else .ok ⟨1, 1, 5, 5⟩),
        ∃ k ∈ ([⟨"1", "서울"⟩, ⟨"6", "부산"⟩] : List AreaCode),
          k ≠ ⟨"6", "부산"⟩
          ∧ regionSubtask
              (fun a => if a.code = "6" then .error () else .ok ⟨1, 1, 5, 5⟩) k
            = some s)
    ∧ List.Sorted (fun u v : RegionStats => v.count ≤ u.count)
        (getRegionStats [⟨"1", "서울"⟩, ⟨"6", "부산"⟩]
          (fun a => if a.code = "6" then .error () else .ok ⟨1, 1, 5, 5⟩))
    ∧ (getTypeStats
          (fun s => if s = "39" then .error () else .ok ⟨1, 1, 3, 3⟩)).length
      = contentTypeIds.length - 1
    ∧ (∀ s ∈ getTypeStats
          (fun s => if s = "39" then .error () else .ok ⟨1, 1, 3, 3⟩),
        ∃ k ∈ contentTypeIds, k ≠ "39"
          ∧ typeSubtask
              (fun s => if s = "39" then .error () else .ok ⟨1, 1, 3, 3⟩) k
            = some s)
    ∧ List.Sorted (fun u v : TypeStats => v.count ≤ u.count)
        (getTypeStats
          (fun s => if s = "39" then .error () else .ok ⟨1, 1, 3, 3⟩)) :=
  stats_one_failing_key Unit [⟨"1", "서울"⟩, ⟨"6", "부산"⟩]
    (fun a => if a.code = "6" then .error () else .ok ⟨1, 1, 5, 5⟩) ⟨"6", "부산"⟩
    (fun s => if s = "39" then .error () else .ok ⟨1, 1, 3, 3⟩) "39"
    (by decide) (by decide) (by decide) (by decide) (by decide) (by decide)
    (by decide)

end TourApi
